import Mathlib

/-!
Shallow embedding of the voice-call intake backend (`src/index.js`).

JavaScript objects are modelled as association lists (`List (String × α)`)
in insertion order, matching JS object key order.  Property read, write and
`delete` are `lookupKey`, `setKey` and `deleteKey`.  `Object.assign` is
`objAssign`.  The two external collaborators — the completion service
(`getLlmResponse` + `JSON.parse` of its content) and the database driver
(`pool.query`) — are parameters of the handler: a function from the request
it is given to an `Except` outcome, so an exception thrown by either is the
`.error` case.  `req.body.X` fields that may be absent are `Option String`;
JS truthiness of such a field (`if (userInput)`) is `jsTruthy`, and using a
possibly-`undefined` value as an object key (`conversationState[callSid]`)
coerces `undefined` to the string "undefined", which is `jsKey`.
-/

set_option autoImplicit false

namespace AshaBackend

variable {α : Type}

/-- One chat message, `{role, content}`. -/
structure Msg where
  role : String
  content : String
  deriving DecidableEq

/-- A JS object with string values, e.g. `collectedData` / `extractedData`. -/
abbrev Obj := List (String × String)

/-- JS property read `o[k]`: the value at the first matching key. -/
def lookupKey : List (String × α) → String → Option α
  | [], _ => none
  | (k, v) :: rest, key => if k = key then some v else lookupKey rest key

/-- JS property write `o[k] = v`: replace in place, or append a new key. -/
def setKey : List (String × α) → String → α → List (String × α)
  | [], key, v => [(key, v)]
  | (k, w) :: rest, key, v =>
      if k = key then (k, v) :: rest else (k, w) :: setKey rest key v

/-- JS `delete o[k]`. -/
def deleteKey (l : List (String × α)) (key : String) : List (String × α) :=
  l.filter (fun p => p.1 ≠ key)

/-- In-place mutation of the value stored at `key` (e.g. `o[k].history.push(..)`). -/
def modifyKey : List (String × α) → String → (α → α) → List (String × α)
  | [], _, _ => []
  | (k, v) :: rest, key, f =>
      if k = key then (k, f v) :: rest else (k, v) :: modifyKey rest key f

/-- `Object.assign(target, source)`: shallow key overwrite, left to right. -/
def objAssign (target source : Obj) : Obj :=
  source.foldl (fun t kv => setKey t kv.1 kv.2) target

/-- JS truthiness of a possibly-absent string field: `undefined` and `""` are falsy. -/
def jsTruthy : Option String → Bool
  | some s => s != ""
  | none => false

/-- A possibly-`undefined` value used as an object key: `undefined` coerces to "undefined". -/
def jsKey : Option String → String
  | some s => s
  | none => "undefined"

/-- Per-call conversation state, `{history: [], collectedData: {}}`. -/
structure ConvState where
  history : List Msg
  collectedData : Obj
  deriving DecidableEq

/-- The in-memory `conversationState` object, keyed by call SID. -/
abbrev Store := List (String × ConvState)

/- ## Basic association-list lemmas -/

theorem lookupKey_setKey_self (l : List (String × α)) (k : String) (v : α) :
    lookupKey (setKey l k v) k = some v := by
  induction l with
  | nil => simp [setKey, lookupKey]
  | cons p rest ih =>
      by_cases h : p.1 = k
      · simp [setKey, lookupKey, h]
      · simp [setKey, lookupKey, h, ih]

theorem lookupKey_setKey_of_ne (l : List (String × α)) {k' k : String} (v : α)
    (h : k' ≠ k) : lookupKey (setKey l k' v) k = lookupKey l k := by
  induction l with
  | nil => simp [setKey, lookupKey, h]
  | cons p rest ih =>
      by_cases hp : p.1 = k'
      · simp [setKey, lookupKey, hp, h]
      · simp only [setKey, hp, if_neg hp, lookupKey]
        by_cases hq : p.1 = k
        · simp [lookupKey, hq]
        · simp [lookupKey, hq, ih]

theorem lookupKey_modifyKey_self (l : List (String × α)) (k : String) (f : α → α) :
    lookupKey (modifyKey l k f) k = (lookupKey l k).map f := by
  induction l with
  | nil => simp [modifyKey, lookupKey]
  | cons p rest ih =>
      obtain ⟨pk, pv⟩ := p
      by_cases h : pk = k
      · subst h; simp [modifyKey, lookupKey]
      · simp [modifyKey, lookupKey, h, ih]

theorem lookupKey_deleteKey_self (l : List (String × α)) (k : String) :
    lookupKey (deleteKey l k) k = none := by
  induction l with
  | nil => simp [deleteKey, lookupKey]
  | cons p rest ih =>
      by_cases h : p.1 = k
      · simpa [deleteKey, h] using ih
      · simpa [deleteKey, lookupKey, h] using ih

theorem setKey_eq_self_of_lookupKey {l : List (String × α)} {k : String} {v : α}
    (h : lookupKey l k = some v) : setKey l k v = l := by
  induction l with
  | nil => simp [lookupKey] at h
  | cons p rest ih =>
      obtain ⟨pk, pv⟩ := p
      by_cases hp : pk = k
      · subst hp
        simp only [lookupKey, if_pos rfl] at h
        cases h
        simp [setKey]
      · simp only [lookupKey, if_neg hp] at h
        simp [setKey, hp, ih h]

theorem isSome_lookupKey_setKey (l : List (String × α)) (k' k : String) (v : α)
    (h : (lookupKey l k).isSome) : (lookupKey (setKey l k' v) k).isSome := by
  by_cases hk : k' = k
  · subst hk; simp [lookupKey_setKey_self]
  · rwa [lookupKey_setKey_of_ne l v hk]

/- ## The parsed completion-service reply

`JSON.parse(llmResponse.choices[0].message.content)` is expected to yield an
object `{responseText, extractedData, isComplete}`. -/

/-- The parsed JSON reply of the completion service. -/
structure ResponseData where
  responseText : String
  extractedData : Obj
  isComplete : Bool
  deriving DecidableEq

/-- TwiML nodes the handler can emit: `twiml.say`, `twiml.hangup`, and
`twiml.gather({input, speechTimeout, action, method})` with a nested `say`. -/
inductive TwimlNode where
  | say (text : String)
  | hangup
  | gather (input speechTimeout action method : String) (sayText : String)
  deriving DecidableEq

/-- Observable side effects of one webhook turn, in program order:
a `pool.query(text, values)` call, or a `delete conversationState[key]`. -/
inductive Event where
  | dbQuery (query : String) (values : List (Option String))
  | removeEntry (key : String)
  deriving DecidableEq

/- ## Prompt assembly (`getLlmResponse`, src/index.js lines 87–113) -/

/-- The fixed system instruction (template literal at lines 89–102). -/
def systemPrompt : String :=
  "\n        You are \x27Asha\x27, a friendly voice agent for the ASHA Sahayak program. Your task is to collect patient health information.\n        \n        Follow this script precisely:\n        1. If full_name is missing, introduce yourself and ask for it.\n        2. If age is missing, ask for it.\n        3. If gender is missing, ask for it.\n        // ... (rest of your detailed script from before) ...\n        10. When all information is collected, say \"Thank you for answering. We have recorded your details.\" and set isComplete to true.\n\n        Rules:\n        - Ask ONLY ONE question at a time.\n        - Your response MUST be a valid JSON object with three keys: \"responseText\", \"extractedData\", and \"isComplete\".\n    "

/-- `JSON.stringify` of a string-valued JS object, in key insertion order. -/
def jsonStringify (o : Obj) : String :=
  "\x7b" ++ String.intercalate "," (o.map (fun kv => "\"" ++ kv.1 ++ "\":\"" ++ kv.2 ++ "\"")) ++ "\x7d"

/-- The trailing system message carrying the `collectedData` snapshot (line 109). -/
def trailingSystemMsg (collectedData : Obj) : Msg :=
  ⟨"system", "Current collected data: " ++ jsonStringify collectedData
      ++ ". Now, determine the next question based on the script and the user\x27s last answer. Generate the next JSON response."⟩

/-- The `messages` array sent to the completion service (lines 106–110):
system prompt, then the spread of `state.history`, then the trailing system message. -/
def buildLlmMessages (state : ConvState) : List Msg :=
  ⟨"system", systemPrompt⟩ :: (state.history ++ [trailingSystemMsg state.collectedData])

/- ## Persistence (`savePatientData`, lines 116–133) -/

/-- The SQL text of the upsert (template literal at lines 117–125), verbatim —
including the stray `.env` before `$4` in the VALUES list. -/
def savePatientQuery : String :=
  "\n        INSERT INTO patients (full_name, phone_number, address, health_condition)\n        VALUES ($1, $2, $3, .env$4)\n        ON CONFLICT (phone_number) DO UPDATE SET\n            full_name = EXCLUDED.full_name,\n            address = EXCLUDED.address,\n            health_condition = EXCLUDED.health_condition,\n            created_at = NOW();\n    "

/-- The bound parameter array (line 126); absent object fields are `undefined`,
which the driver sends as NULL, hence `Option String`. -/
def patientValues (phoneNumber : String) (data : Obj) : List (Option String) :=
  [lookupKey data "full_name", some phoneNumber, lookupKey data "address",
   lookupKey data "health_condition"]

/-- `savePatientData(phoneNumber, data)`: issues one `pool.query`; a failure is
caught and only logged, so nothing escapes.  `dbExec` is the external database
driver.  Returns the issued events and the log line produced. -/
def savePatientData (dbExec : String → List (Option String) → Except String Unit)
    (phoneNumber : String) (data : Obj) : List Event × String :=
  let values := patientValues phoneNumber data
  match dbExec savePatientQuery values with
  | .ok _ =>
      ([Event.dbQuery savePatientQuery values],
       "Successfully saved/updated data for " ++ phoneNumber)
  | .error e =>
      ([Event.dbQuery savePatientQuery values],
       "Error saving data to database: " ++ e)

/- ## The `/voice` webhook handler (lines 43–84) -/

/-- The `req.body` fields the handler reads. -/
structure VoiceBody where
  CallSid : Option String
  SpeechResult : Option String
  To : String
  deriving DecidableEq

/-- The apology spoken on the catch branch (line 78). -/
def apologyText : String :=
  "I apologize, but I encountered an error. Please try again later."

/-- The result of one webhook turn: the TwiML document sent back, the side
effects in order, the console log lines, and the store afterwards. -/
structure TurnResult where
  twiml : List TwimlNode
  events : List Event
  logs : List String
  store : Store
  deriving DecidableEq

/-- Lines 48–50: `if (!conversationState[callSid]) conversationState[callSid] = {history: [], collectedData: {}}`,
exposed as the store operation get-or-create; first component is the entry
the subsequent lines read, second the store afterwards. -/
def getOrCreate (store : Store) (key : String) : ConvState × Store :=
  match lookupKey store key with
  | some st => (st, store)
  | none => (⟨[], []⟩, setKey store key ⟨[], []⟩)

/-- The store after lines 48–54: get-or-create, then
`if (userInput) history.push({role: user, content: userInput})`. -/
def preStore (store : Store) (body : VoiceBody) : Store :=
  let callSid := jsKey body.CallSid
  let store1 := (getOrCreate store callSid).2
  if jsTruthy body.SpeechResult then
    modifyKey store1 callSid
      (fun st => { st with history := st.history ++ [⟨"user", body.SpeechResult.getD ""⟩] })
  else store1

/-- The entry `conversationState[callSid]` that `getLlmResponse` reads (line 88). -/
def preState (store : Store) (body : VoiceBody) : ConvState :=
  (lookupKey (preStore store body) (jsKey body.CallSid)).getD ⟨[], []⟩

/-- Lines 60–61: merge `extractedData` into `collectedData` with `Object.assign`,
then push the assistant message. -/
def okUpdate (rd : ResponseData) (st : ConvState) : ConvState :=
  let st1 := { st with collectedData := objAssign st.collectedData rd.extractedData }
  { st1 with history := st1.history ++ [⟨"assistant", rd.responseText⟩] }

/-- `app.post(\x27/voice\x27)` (lines 43–84).  `llmComplete` is the external
completion call plus `JSON.parse` of its content: `.error` is any exception
(network failure or unparseable content); it is invoked on the `messages`
array built from the current entry. -/
def handleVoice (llmComplete : List Msg → Except String ResponseData)
    (dbExec : String → List (Option String) → Except String Unit)
    (store : Store) (body : VoiceBody) : TurnResult :=
  let callSid := jsKey body.CallSid
  let store2 := preStore store body
  match llmComplete (buildLlmMessages (preState store body)) with
  | .error e =>
      { twiml := [.say apologyText, .hangup],
        events := [],
        logs := ["Error during LLM processing or TwiML generation: " ++ e],
        store := store2 }
  | .ok rd =>
      let store3 := modifyKey store2 callSid (okUpdate rd)
      let st3 := (lookupKey store3 callSid).getD ⟨[], []⟩
      if rd.isComplete then
        let saved := savePatientData dbExec body.To st3.collectedData
        { twiml := [.say rd.responseText, .hangup],
          events := saved.1 ++ [.removeEntry callSid],
          logs := ["Current State: " ++ jsonStringify st3.collectedData, saved.2],
          store := deleteKey store3 callSid }
      else
        { twiml := [.gather "speech" "auto" "/voice" "POST" rd.responseText],
          events := [],
          logs := ["Current State: " ++ jsonStringify st3.collectedData],
          store := store3 }

/- ## The `/initiate-call` endpoint (lines 137–158) -/

/-- The `req.body` fields of `/initiate-call`; the source destructures
`{phoneNumber, ngrokUrl}`. -/
structure InitiateBody where
  phoneNumber : Option String
  ngrokUrl : Option String
  deriving DecidableEq

/-- Arguments of `client.calls.create({url, to, from})`. -/
structure CallsCreateArgs where
  url : String
  toNumber : String
  fromNumber : String
  deriving DecidableEq

/-- The HTTP response of `/initiate-call`. -/
structure ApiResponse where
  status : Nat
  message : String
  callSid : Option String
  error : Option String
  deriving DecidableEq

/-- `app.post(\x27/initiate-call\x27)`.  `callsCreate` is the external telephony
trigger; on success it yields the created call SID. -/
def initiateCall (callsCreate : CallsCreateArgs → Except String String)
    (twilioPhoneNumber : String) (body : InitiateBody) : ApiResponse :=
  if !(jsTruthy body.phoneNumber) || !(jsTruthy body.ngrokUrl) then
    { status := 400, message := "Both phoneNumber and ngrokUrl are required.",
      callSid := none, error := none }
  else
    let webhookUrl := body.ngrokUrl.getD "" ++ "/voice"
    match callsCreate ⟨webhookUrl, body.phoneNumber.getD "", twilioPhoneNumber⟩ with
    | .ok sid =>
        { status := 200, message := "Call has been successfully initiated!",
          callSid := some sid, error := none }
    | .error e =>
        { status := 500, message := "Failed to initiate call.",
          callSid := none, error := some e }

/- ## Derived lemmas about the handler pipeline -/

/-- The collaborator types: completion call (+ JSON.parse) and database driver. -/
abbrev LlmCall := List Msg → Except String ResponseData

/-- The database driver: `pool.query(text, values)`. -/
abbrev DbExec := String → List (Option String) → Except String Unit

theorem lookupKey_getOrCreate (store : Store) (k : String) :
    lookupKey (getOrCreate store k).2 k = some (getOrCreate store k).1 := by
  cases h : lookupKey store k with
  | some st => simp [getOrCreate, h]
  | none => simp [getOrCreate, h, lookupKey_setKey_self]

theorem preState_of_truthy (store : Store) (body : VoiceBody)
    (h : jsTruthy body.SpeechResult = true) :
    preState store body
      = { (getOrCreate store (jsKey body.CallSid)).1 with
          history := ((getOrCreate store (jsKey body.CallSid)).1).history
            ++ [⟨"user", body.SpeechResult.getD ""⟩] } := by
  simp [preState, preStore, h, lookupKey_modifyKey_self, lookupKey_getOrCreate]

theorem preState_of_falsy (store : Store) (body : VoiceBody)
    (h : jsTruthy body.SpeechResult = false) :
    preState store body = (getOrCreate store (jsKey body.CallSid)).1 := by
  simp [preState, preStore, h, lookupKey_getOrCreate]

theorem lookupKey_preStore (store : Store) (body : VoiceBody) :
    lookupKey (preStore store body) (jsKey body.CallSid) = some (preState store body) := by
  cases h : jsTruthy body.SpeechResult with
  | false =>
      rw [preState_of_falsy store body h]
      simp [preStore, h, lookupKey_getOrCreate]
  | true =>
      rw [preState_of_truthy store body h]
      simp [preStore, h, lookupKey_modifyKey_self, lookupKey_getOrCreate]

theorem savePatientData_events (dbExec : DbExec) (phone : String) (data : Obj) :
    (savePatientData dbExec phone data).1
      = [Event.dbQuery savePatientQuery (patientValues phone data)] := by
  unfold savePatientData
  cases h : dbExec savePatientQuery (patientValues phone data) <;> simp [h]

theorem objAssign_cons (t : Obj) (kv : String × String) (s : Obj) :
    objAssign t (kv :: s) = objAssign (setKey t kv.1 kv.2) s := rfl

theorem isSome_lookupKey_objAssign (t s : Obj) (k : String)
    (h : (lookupKey t k).isSome) : (lookupKey (objAssign t s) k).isSome := by
  induction s generalizing t with
  | nil => simpa [objAssign] using h
  | cons kv rest ih =>
      rw [objAssign_cons]
      exact ih _ (isSome_lookupKey_setKey _ _ _ _ h)

theorem lookupKey_objAssign_of_not_mem (t s : Obj) (k : String)
    (h : k ∉ s.map Prod.fst) :
    lookupKey (objAssign t s) k = lookupKey t k := by
  induction s generalizing t with
  | nil => rfl
  | cons kv rest ih =>
      simp only [List.map_cons, List.mem_cons] at h
      push_neg at h
      rw [objAssign_cons, ih _ h.2, lookupKey_setKey_of_ne _ _ h.1.symm]

theorem objAssign_idem (t s : Obj) (hnd : (s.map Prod.fst).Nodup) :
    objAssign (objAssign t s) s = objAssign t s := by
  induction s generalizing t with
  | nil => rfl
  | cons kv rest ih =>
      simp only [List.map_cons, List.nodup_cons] at hnd
      obtain ⟨hmem, hrest⟩ := hnd
      rw [objAssign_cons, objAssign_cons]
      have hlook : lookupKey (objAssign (setKey t kv.1 kv.2) rest) kv.1 = some kv.2 := by
        rw [lookupKey_objAssign_of_not_mem _ _ _ hmem, lookupKey_setKey_self]
      rw [setKey_eq_self_of_lookupKey hlook]
      exact ih _ hrest

/- ## Claim theorems -/

/-- C6: for every call identifier, `get_or_create` returns the existing entry
when one is present (leaving the store unchanged), otherwise creates the fresh
entry `{history: [], collectedData: {}}`; and a second invocation without an
intervening remove returns the identical state with the identical store, so no
duplicate entry is ever created. -/
theorem claim6_get_or_create_no_duplicate (store : Store) (k : String) :
    (∀ st, lookupKey store k = some st → getOrCreate store k = (st, store)) ∧
    (lookupKey store k = none →
      getOrCreate store k = (⟨[], []⟩, setKey store k ⟨[], []⟩)) ∧
    getOrCreate (getOrCreate store k).2 k
      = ((getOrCreate store k).1, (getOrCreate store k).2) := by
  refine ⟨fun st h => by simp [getOrCreate, h], fun h => by simp [getOrCreate, h], ?_⟩
  cases h : lookupKey store k with
  | some st => simp [getOrCreate, h]
  | none => simp [getOrCreate, h, lookupKey_setKey_self]

/-- Witness for C6 at concrete inputs. -/
theorem claim6_get_or_create_no_duplicate_witness :
    getOrCreate [("CA1", ⟨[], [("full_name", "A")]⟩)] "CA1"
      = (⟨[], [("full_name", "A")]⟩, [("CA1", ⟨[], [("full_name", "A")]⟩)]) ∧
    getOrCreate (getOrCreate [] "CA2").2 "CA2"
      = ((getOrCreate [] "CA2").1, (getOrCreate [] "CA2").2) :=
  ⟨(claim6_get_or_create_no_duplicate [("CA1", ⟨[], [("full_name", "A")]⟩)] "CA1").1
      ⟨[], [("full_name", "A")]⟩ (by decide),
   (claim6_get_or_create_no_duplicate [] "CA2").2.2⟩

/-- C8: the `Object.assign` merge of `extractedData` into `collectedData` never
deletes a key that was present before the turn (it only grows or overwrites),
and merging the same extraction twice (its keys unique, as for any JS object)
is idempotent. -/
theorem claim8_merge_grows_and_idempotent (t s : Obj) (k : String) :
    ((lookupKey t k).isSome → (lookupKey (objAssign t s) k).isSome) ∧
    ((s.map Prod.fst).Nodup → objAssign (objAssign t s) s = objAssign t s) :=
  ⟨isSome_lookupKey_objAssign t s k, objAssign_idem t s⟩

/-- Witness for C8: merging `{full_name: "A"}` twice yields `{full_name: "A"}`,
and a previously collected key survives the merge. -/
theorem claim8_merge_grows_and_idempotent_witness :
    (lookupKey (objAssign [("address", "Ward 3")] [("full_name", "A")]) "address").isSome ∧
    objAssign (objAssign [] [("full_name", "A")]) [("full_name", "A")]
      = objAssign [] [("full_name", "A")] :=
  ⟨(claim8_merge_grows_and_idempotent [("address", "Ward 3")] [("full_name", "A")] "address").1
      (by decide),
   (claim8_merge_grows_and_idempotent [] [("full_name", "A")] "full_name").2 (by decide)⟩

/-- C2: when the completion call or the JSON parse of its content raises, the
turn's TwiML is the generic apology followed by hangup, and the conversation
state entry for the call identifier is still in the store afterwards. -/
theorem claim2_error_apology_keeps_state (llm : LlmCall) (dbExec : DbExec)
    (store : Store) (body : VoiceBody) (e : String)
    (h : llm (buildLlmMessages (preState store body)) = .error e) :
    (handleVoice llm dbExec store body).twiml = [.say apologyText, .hangup] ∧
    (lookupKey (handleVoice llm dbExec store body).store (jsKey body.CallSid)).isSome := by
  constructor
  · simp [handleVoice, h]
  · simp [handleVoice, h, lookupKey_preStore]

/-- Witness for C2: a malformed-JSON completion response on a concrete turn. -/
theorem claim2_error_apology_keeps_state_witness :
    ((fun _ => .error "Unexpected token h in JSON at position 0" : LlmCall)
        (buildLlmMessages (preState [] ⟨some "CA9", some "hello", "+15550100"⟩))
      = .error "Unexpected token h in JSON at position 0") ∧
    (handleVoice (fun _ => .error "Unexpected token h in JSON at position 0")
        (fun _ _ => .ok ()) [] ⟨some "CA9", some "hello", "+15550100"⟩).twiml
      = [.say apologyText, .hangup] ∧
    (lookupKey (handleVoice (fun _ => .error "Unexpected token h in JSON at position 0")
        (fun _ _ => .ok ()) [] ⟨some "CA9", some "hello", "+15550100"⟩).store
      (jsKey (some "CA9"))).isSome :=
  ⟨rfl,
   claim2_error_apology_keeps_state _ (fun _ _ => .ok ())
     [] ⟨some "CA9", some "hello", "+15550100"⟩ _ rfl⟩

/-- C4: a persistence failure never surfaces: on an `isComplete=true` turn the
handler speaks `responseText`, hangs up and removes the state entry, and the
TwiML, the issued side effects and the resulting store are identical whatever
the database driver returns (only the log line differs). -/
theorem claim4_db_failure_invisible (llm : LlmCall) (d1 d2 : DbExec)
    (store : Store) (body : VoiceBody) (rd : ResponseData)
    (h : llm (buildLlmMessages (preState store body)) = .ok rd)
    (hc : rd.isComplete = true) :
    (handleVoice llm d1 store body).twiml = [.say rd.responseText, .hangup] ∧
    lookupKey (handleVoice llm d1 store body).store (jsKey body.CallSid) = none ∧
    (handleVoice llm d1 store body).twiml = (handleVoice llm d2 store body).twiml ∧
    (handleVoice llm d1 store body).events = (handleVoice llm d2 store body).events ∧
    (handleVoice llm d1 store body).store = (handleVoice llm d2 store body).store := by
  refine ⟨?_, ?_, ?_, ?_, ?_⟩
  · simp [handleVoice, h, hc]
  · simp [handleVoice, h, hc, lookupKey_deleteKey_self]
  · simp [handleVoice, h, hc]
  · simp [handleVoice, h, hc, savePatientData_events]
  · simp [handleVoice, h, hc]

/-- Witness for C4: same completed turn against a succeeding and a failing
database driver. -/
theorem claim4_db_failure_invisible_witness :
    ((fun _ => .ok ⟨"Bye", [("full_name", "A")], true⟩ : LlmCall)
        (buildLlmMessages (preState [] ⟨some "CA4", some "yes", "+15550100"⟩))
      = .ok ⟨"Bye", [("full_name", "A")], true⟩) ∧
    (handleVoice (fun _ => .ok ⟨"Bye", [("full_name", "A")], true⟩)
        (fun _ _ => .ok ()) [] ⟨some "CA4", some "yes", "+15550100"⟩).twiml
      = [.say "Bye", .hangup] ∧
    (handleVoice (fun _ => .ok ⟨"Bye", [("full_name", "A")], true⟩)
          (fun _ _ => .ok ()) [] ⟨some "CA4", some "yes", "+15550100"⟩).store
      = (handleVoice (fun _ => .ok ⟨"Bye", [("full_name", "A")], true⟩)
          (fun _ _ => .error "connection refused") [] ⟨some "CA4", some "yes", "+15550100"⟩).store :=
  ⟨rfl,
   (claim4_db_failure_invisible _ (fun _ _ => .ok ()) (fun _ _ => .error "connection refused")
      [] ⟨some "CA4", some "yes", "+15550100"⟩ ⟨"Bye", [("full_name", "A")], true⟩ rfl rfl).1,
   (claim4_db_failure_invisible _ (fun _ _ => .ok ()) (fun _ _ => .error "connection refused")
      [] ⟨some "CA4", some "yes", "+15550100"⟩ ⟨"Bye", [("full_name", "A")], true⟩ rfl rfl).2.2.2.2⟩

/-- C3: the entry for a call identifier is removed exactly once, on the turn
whose completion reply has `isComplete=true`, with the removal event after the
persistence call in the turn's event order, and the store afterwards has no
entry for that identifier; on an `isComplete=false` turn and on a failed turn
no removal event is issued and the entry remains. -/
theorem claim3_remove_once_after_persist (llm : LlmCall) (dbExec : DbExec)
    (store : Store) (body : VoiceBody) :
    (∀ rd, llm (buildLlmMessages (preState store body)) = .ok rd →
      rd.isComplete = true →
        (handleVoice llm dbExec store body).events
          = [Event.dbQuery savePatientQuery
               (patientValues body.To (okUpdate rd (preState store body)).collectedData),
             Event.removeEntry (jsKey body.CallSid)] ∧
        lookupKey (handleVoice llm dbExec store body).store (jsKey body.CallSid) = none) ∧
    (∀ rd, llm (buildLlmMessages (preState store body)) = .ok rd →
      rd.isComplete = false →
        (handleVoice llm dbExec store body).events = [] ∧
        (lookupKey (handleVoice llm dbExec store body).store (jsKey body.CallSid)).isSome) ∧
    (∀ e, llm (buildLlmMessages (preState store body)) = .error e →
        (handleVoice llm dbExec store body).events = [] ∧
        (lookupKey (handleVoice llm dbExec store body).store (jsKey body.CallSid)).isSome) := by
  refine ⟨fun rd h hc => ⟨?_, ?_⟩, fun rd h hc => ⟨?_, ?_⟩, fun e h => ⟨?_, ?_⟩⟩
  · simp [handleVoice, h, hc, savePatientData_events, lookupKey_modifyKey_self,
      lookupKey_preStore]
  · simp [handleVoice, h, hc, lookupKey_deleteKey_self]
  · simp [handleVoice, h, hc]
  · simp [handleVoice, h, hc, lookupKey_modifyKey_self, lookupKey_preStore]
  · simp [handleVoice, h]
  · simp [handleVoice, h, lookupKey_preStore]

/-- Witness for C3: a completed turn, a continuing turn and a failed turn at
concrete inputs. -/
theorem claim3_remove_once_after_persist_witness :
    ((handleVoice (fun _ => .ok ⟨"Bye", [("full_name", "B")], true⟩) (fun _ _ => .ok ())
        [] ⟨some "CA31", some "yes", "+15550100"⟩).events
      = [Event.dbQuery savePatientQuery
           (patientValues "+15550100"
             (okUpdate ⟨"Bye", [("full_name", "B")], true⟩
               (preState [] ⟨some "CA31", some "yes", "+15550100"⟩)).collectedData),
         Event.removeEntry (jsKey (some "CA31"))] ∧
      lookupKey (handleVoice (fun _ => .ok ⟨"Bye", [("full_name", "B")], true⟩)
          (fun _ _ => .ok ()) [] ⟨some "CA31", some "yes", "+15550100"⟩).store
        (jsKey (some "CA31")) = none) ∧
    ((handleVoice (fun _ => .ok ⟨"Next?", [], false⟩) (fun _ _ => .ok ())
        [] ⟨some "CA32", some "hi", "+15550100"⟩).events = [] ∧
      (lookupKey (handleVoice (fun _ => .ok ⟨"Next?", [], false⟩) (fun _ _ => .ok ())
          [] ⟨some "CA32", some "hi", "+15550100"⟩).store (jsKey (some "CA32"))).isSome) ∧
    ((handleVoice (fun _ => .error "boom") (fun _ _ => .ok ())
        [] ⟨some "CA33", some "hi", "+15550100"⟩).events = [] ∧
      (lookupKey (handleVoice (fun _ => .error "boom") (fun _ _ => .ok ())
          [] ⟨some "CA33", some "hi", "+15550100"⟩).store (jsKey (some "CA33"))).isSome) :=
  ⟨(claim3_remove_once_after_persist (fun _ => .ok ⟨"Bye", [("full_name", "B")], true⟩)
      (fun _ _ => .ok ()) [] ⟨some "CA31", some "yes", "+15550100"⟩).1
      ⟨"Bye", [("full_name", "B")], true⟩ rfl rfl,
   (claim3_remove_once_after_persist (fun _ => .ok ⟨"Next?", [], false⟩)
      (fun _ _ => .ok ()) [] ⟨some "CA32", some "hi", "+15550100"⟩).2.1
      ⟨"Next?", [], false⟩ rfl rfl,
   (claim3_remove_once_after_persist (fun _ => .error "boom")
      (fun _ _ => .ok ()) [] ⟨some "CA33", some "hi", "+15550100"⟩).2.2 "boom" rfl⟩

/-- C7: on every successfully parsed turn with a non-empty caller utterance —
terminal or not — the handler updates the entry to
`okUpdate rd (preState store body)`, whose history ends with the user message
followed by the assistant reply; when the turn is not terminal that state is
what the store holds afterwards; on a first turn with empty `SpeechResult` the
stored history is exactly the one assistant message and the directive is a
gather with nested say. -/
theorem claim7_history_user_then_assistant (llm : LlmCall) (dbExec : DbExec)
    (store : Store) (body : VoiceBody) :
    (∀ u rd, body.SpeechResult = some u → u ≠ "" →
      llm (buildLlmMessages (preState store body)) = .ok rd →
        lookupKey (modifyKey (preStore store body) (jsKey body.CallSid) (okUpdate rd))
            (jsKey body.CallSid)
          = some (okUpdate rd (preState store body)) ∧
        (okUpdate rd (preState store body)).history.getLast?
          = some ⟨"assistant", rd.responseText⟩ ∧
        (okUpdate rd (preState store body)).history.dropLast.getLast?
          = some ⟨"user", u⟩ ∧
        (rd.isComplete = false →
          lookupKey (handleVoice llm dbExec store body).store (jsKey body.CallSid)
            = some (okUpdate rd (preState store body)))) ∧
    (∀ rd, lookupKey store (jsKey body.CallSid) = none →
      jsTruthy body.SpeechResult = false →
      llm (buildLlmMessages (preState store body)) = .ok rd →
      rd.isComplete = false →
        lookupKey (handleVoice llm dbExec store body).store (jsKey body.CallSid)
          = some ⟨[⟨"assistant", rd.responseText⟩], objAssign [] rd.extractedData⟩ ∧
        (handleVoice llm dbExec store body).twiml
          = [.gather "speech" "auto" "/voice" "POST" rd.responseText]) := by
  constructor
  · intro u rd hu hne h
    have htr : jsTruthy body.SpeechResult = true := by simp [jsTruthy, hu, hne]
    refine ⟨?_, ?_, ?_, ?_⟩
    · simp [lookupKey_modifyKey_self, lookupKey_preStore]
    · simp [okUpdate, List.getLast?_concat]
    · rw [preState_of_truthy store body htr]
      simp [okUpdate, hu, List.getLast?_concat]
    · intro hc
      simp [handleVoice, h, hc, lookupKey_modifyKey_self, lookupKey_preStore]
  · intro rd hnone hfalsy h hc
    have hbase : (getOrCreate store (jsKey body.CallSid)).1 = ⟨[], []⟩ := by
      simp [getOrCreate, hnone]
    have hpre : preState store body = ⟨[], []⟩ := by
      rw [preState_of_falsy store body hfalsy, hbase]
    rw [hpre] at h
    constructor
    · simp [handleVoice, h, hc, lookupKey_modifyKey_self, lookupKey_preStore, hpre, okUpdate]
    · simp [handleVoice, h, hc, hpre]

/-- Witness for C7: a terminal turn with utterance "John" (the ordering holds
on the pre-deletion state), a continuing turn (that state is what the store
holds), and a first turn with no `SpeechResult`. -/
theorem claim7_history_user_then_assistant_witness :
    ((okUpdate ⟨"Thanks, recorded.", [("full_name", "John")], true⟩
        (preState [] ⟨some "CA73", some "John", "+15550100"⟩)).history.getLast?
      = some ⟨"assistant", "Thanks, recorded."⟩ ∧
     (okUpdate ⟨"Thanks, recorded.", [("full_name", "John")], true⟩
        (preState [] ⟨some "CA73", some "John", "+15550100"⟩)).history.dropLast.getLast?
      = some ⟨"user", "John"⟩) ∧
    lookupKey (handleVoice (fun _ => .ok ⟨"And your age?", [("full_name", "John")], false⟩)
        (fun _ _ => .ok ()) [] ⟨some "CA71", some "John", "+15550100"⟩).store
      (jsKey (some "CA71"))
      = some (okUpdate ⟨"And your age?", [("full_name", "John")], false⟩
          (preState [] ⟨some "CA71", some "John", "+15550100"⟩)) ∧
    (lookupKey (handleVoice (fun _ => .ok ⟨"Hello, your name?", [], false⟩)
          (fun _ _ => .ok ()) [] ⟨some "CA72", none, "+15550100"⟩).store
        (jsKey (some "CA72"))
      = some ⟨[⟨"assistant", "Hello, your name?"⟩], objAssign [] []⟩ ∧
      (handleVoice (fun _ => .ok ⟨"Hello, your name?", [], false⟩)
          (fun _ _ => .ok ()) [] ⟨some "CA72", none, "+15550100"⟩).twiml
        = [.gather "speech" "auto" "/voice" "POST" "Hello, your name?"]) :=
  ⟨⟨((claim7_history_user_then_assistant
        (fun _ => .ok ⟨"Thanks, recorded.", [("full_name", "John")], true⟩)
        (fun _ _ => .ok ()) [] ⟨some "CA73", some "John", "+15550100"⟩).1
        "John" ⟨"Thanks, recorded.", [("full_name", "John")], true⟩ rfl (by decide) rfl).2.1,
    ((claim7_history_user_then_assistant
        (fun _ => .ok ⟨"Thanks, recorded.", [("full_name", "John")], true⟩)
        (fun _ _ => .ok ()) [] ⟨some "CA73", some "John", "+15550100"⟩).1
        "John" ⟨"Thanks, recorded.", [("full_name", "John")], true⟩ rfl (by decide) rfl).2.2.1⟩,
   ((claim7_history_user_then_assistant
        (fun _ => .ok ⟨"And your age?", [("full_name", "John")], false⟩)
        (fun _ _ => .ok ()) [] ⟨some "CA71", some "John", "+15550100"⟩).1
        "John" ⟨"And your age?", [("full_name", "John")], false⟩ rfl (by decide) rfl).2.2.2 rfl,
   (claim7_history_user_then_assistant (fun _ => .ok ⟨"Hello, your name?", [], false⟩)
      (fun _ _ => .ok ()) [] ⟨some "CA72", none, "+15550100"⟩).2
      ⟨"Hello, your name?", [], false⟩ rfl rfl rfl rfl⟩

/-- C9: the message list sent to the completion collaborator is the fixed
system instruction first, then the call's history verbatim, then one trailing
system message with the `collectedData` snapshot; and the handler consults the
completion collaborator only at that list. -/
theorem claim9_llm_request_shape (st : ConvState) (llm1 llm2 : LlmCall)
    (dbExec : DbExec) (store : Store) (body : VoiceBody) :
    ((buildLlmMessages st).head? = some ⟨"system", systemPrompt⟩ ∧
     ((buildLlmMessages st).drop 1).dropLast = st.history ∧
     (buildLlmMessages st).getLast? = some (trailingSystemMsg st.collectedData) ∧
     (buildLlmMessages st).length = st.history.length + 2) ∧
    (llm1 (buildLlmMessages (preState store body))
        = llm2 (buildLlmMessages (preState store body)) →
      handleVoice llm1 dbExec store body = handleVoice llm2 dbExec store body) := by
  constructor
  · refine ⟨rfl, ?_, ?_, ?_⟩
    · simp [buildLlmMessages]
    · simp [buildLlmMessages, List.getLast?_cons, List.getLast?_concat]
    · simp [buildLlmMessages]
  · intro h
    simp only [handleVoice]
    rw [h]

/-- Witness for C9: the tie-in implication at a concrete turn. -/
theorem claim9_llm_request_shape_witness :
    handleVoice (fun ms => .ok ⟨"Hi", [], (ms.length == 2)⟩) (fun _ _ => .ok ())
        [] ⟨some "CA91", none, "+15550100"⟩
      = handleVoice (fun ms => .ok ⟨"Hi", [], (ms.length != 3)⟩) (fun _ _ => .ok ())
        [] ⟨some "CA91", none, "+15550100"⟩ :=
  (claim9_llm_request_shape ⟨[], []⟩ (fun ms => .ok ⟨"Hi", [], (ms.length == 2)⟩)
    (fun ms => .ok ⟨"Hi", [], (ms.length != 3)⟩) (fun _ _ => .ok ())
    [] ⟨some "CA91", none, "+15550100"⟩).2 rfl

/-- Two webhook bodies that coincide on the store key, the utterance and the
called number drive the handler identically. -/
theorem handleVoice_congr (llm : LlmCall) (dbExec : DbExec) (store : Store)
    (b1 b2 : VoiceBody) (hk : jsKey b1.CallSid = jsKey b2.CallSid)
    (hs : b1.SpeechResult = b2.SpeechResult) (ht : b1.To = b2.To) :
    handleVoice llm dbExec store b1 = handleVoice llm dbExec store b2 := by
  obtain ⟨c1, s1, t1⟩ := b1
  obtain ⟨c2, s2, t2⟩ := b2
  dsimp only at hk hs ht
  subst hs; subst ht
  simp only [handleVoice, preStore, preState]
  rw [hk]

/-- C10: a webhook request with no `CallSid` is not rejected: it is handled
exactly like a request whose call identifier is the literal string
"undefined", so all such requests share the one store entry at that key,
which exists after the get-or-create step. -/
theorem claim10_missing_callsid_shared_state (llm : LlmCall) (dbExec : DbExec)
    (store : Store) (body : VoiceBody) (h : body.CallSid = none) :
    jsKey body.CallSid = "undefined" ∧
    (lookupKey (preStore store body) "undefined").isSome ∧
    handleVoice llm dbExec store body
      = handleVoice llm dbExec store ⟨some "undefined", body.SpeechResult, body.To⟩ := by
  have hk : jsKey body.CallSid = "undefined" := by rw [h]; rfl
  refine ⟨hk, ?_, ?_⟩
  · have := lookupKey_preStore store body
    rw [hk] at this
    simp [this]
  · exact handleVoice_congr llm dbExec store _ _ (by rw [hk]; rfl) rfl rfl

/-- Witness for C10: two concrete CallSid-less requests land on the same key
and are processed as call "undefined". -/
theorem claim10_missing_callsid_shared_state_witness :
    jsKey (VoiceBody.mk none (some "hello") "+15550100").CallSid = "undefined" ∧
    (lookupKey (preStore [] ⟨none, some "hello", "+15550100"⟩) "undefined").isSome ∧
    handleVoice (fun _ => .ok ⟨"Hi", [], false⟩) (fun _ _ => .ok ())
        [] ⟨none, some "hello", "+15550100"⟩
      = handleVoice (fun _ => .ok ⟨"Hi", [], false⟩) (fun _ _ => .ok ())
        [] ⟨some "undefined", some "hello", "+15550100"⟩ :=
  claim10_missing_callsid_shared_state (fun _ => .ok ⟨"Hi", [], false⟩)
    (fun _ _ => .ok ()) [] ⟨none, some "hello", "+15550100"⟩ rfl

/-- C5: the call-initiation endpoint returns 400 when either body field is
missing (falsy); otherwise it triggers the telephony transport with webhook
URL `ngrokUrl ++ "/voice"`, the requested number and the configured sender,
and returns 200 with the success message and the created call SID, or 500
with the failure message and the underlying error. -/
theorem claim5_initiate_call_responses (callsCreate : CallsCreateArgs → Except String String)
    (tw : String) (body : InitiateBody) :
    ((jsTruthy body.phoneNumber = false ∨ jsTruthy body.ngrokUrl = false) →
      (initiateCall callsCreate tw body).status = 400) ∧
    (∀ p u sid, body.phoneNumber = some p → body.ngrokUrl = some u → p ≠ "" → u ≠ "" →
      callsCreate ⟨u ++ "/voice", p, tw⟩ = .ok sid →
      initiateCall callsCreate tw body
        = ⟨200, "Call has been successfully initiated!", some sid, none⟩) ∧
    (∀ p u e, body.phoneNumber = some p → body.ngrokUrl = some u → p ≠ "" → u ≠ "" →
      callsCreate ⟨u ++ "/voice", p, tw⟩ = .error e →
      initiateCall callsCreate tw body
        = ⟨500, "Failed to initiate call.", none, some e⟩) := by
  refine ⟨fun h => ?_, fun p u sid hp hu hpne hune hc => ?_, fun p u e hp hu hpne hune hc => ?_⟩
  · rcases h with h | h <;> simp [initiateCall, h]
  · simp [initiateCall, hp, hu, jsTruthy, hpne, hune, hc]
  · simp [initiateCall, hp, hu, jsTruthy, hpne, hune, hc]

/-- Witness for C5: a missing field, a successful trigger, and a failing
trigger at concrete inputs. -/
theorem claim5_initiate_call_responses_witness :
    (initiateCall (fun _ => .ok "CAxyz") "+15559999" ⟨some "+15550100", none⟩).status = 400 ∧
    initiateCall (fun a => if a = ⟨"https://x.ngrok.io/voice", "+15550100", "+15559999"⟩
        then .ok "CAxyz" else .error "nope") "+15559999"
        ⟨some "+15550100", some "https://x.ngrok.io"⟩
      = ⟨200, "Call has been successfully initiated!", some "CAxyz", none⟩ ∧
    initiateCall (fun _ => .error "Authentication Error") "+15559999"
        ⟨some "+15550100", some "https://x.ngrok.io"⟩
      = ⟨500, "Failed to initiate call.", none, some "Authentication Error"⟩ :=
  ⟨(claim5_initiate_call_responses (fun _ => .ok "CAxyz") "+15559999"
      ⟨some "+15550100", none⟩).1 (Or.inr rfl),
   (claim5_initiate_call_responses _ "+15559999"
      ⟨some "+15550100", some "https://x.ngrok.io"⟩).2.1
      "+15550100" "https://x.ngrok.io" "CAxyz" rfl rfl (by decide) (by decide) rfl,
   (claim5_initiate_call_responses (fun _ => .error "Authentication Error") "+15559999"
      ⟨some "+15550100", some "https://x.ngrok.io"⟩).2.2
      "+15550100" "https://x.ngrok.io" "Authentication Error" rfl rfl
      (by decide) (by decide) rfl⟩

set_option maxRecDepth 8000 in
/-- C1 (code bug, line 119): a completed turn issues exactly one `pool.query`
call binding `full_name`, `address` and `health_condition` from the collected
data and `phone_number` from the webhook's `To` field — but the SQL text it
issues contains the stray fragment `.env` immediately before the `$4`
placeholder, so its VALUES clause is not valid PostgreSQL and the upsert can
never execute; the statement `savePatientQuery` decomposes around that
fragment as shown. -/
theorem claim1_upsert_sql_malformed :
    (handleVoice
        (fun _ => .ok ⟨"Thank you for answering. We have recorded your details.",
            [("full_name", "Asha Devi"), ("address", "Ward 3"),
             ("health_condition", "fever")], true⟩)
        (fun _ _ => .error "syntax error at or near \x22.\x22")
        [] ⟨some "CA123", some "I have fever", "+15550100"⟩).events
      = [Event.dbQuery savePatientQuery
           [some "Asha Devi", some "+15550100", some "Ward 3", some "fever"],
         Event.removeEntry "CA123"] ∧
    savePatientQuery
      = "\n        INSERT INTO patients (full_name, phone_number, address, health_condition)\n        VALUES ($1, $2, $3, "
        ++ ".env"
        ++ "$4)\n        ON CONFLICT (phone_number) DO UPDATE SET\n            full_name = EXCLUDED.full_name,\n            address = EXCLUDED.address,\n            health_condition = EXCLUDED.health_condition,\n            created_at = NOW();\n    " := by
  constructor
  · decide
  · rfl

end AshaBackend
